import Mathlib

/-!
Verification of the rate-limited concurrent dispatch engine in
`src/a_sink_openai/chat.py` (throttle-openai).

The Python module is shallowly embedded below:

* JSON values are modelled by the inductive `Json`; a Python `dict` is an
  ordered association list of key/value pairs.
* The HTTP transport is modelled by an oracle `List Resp`: the list of
  responses the server would give to the successive POST attempts of one
  logical call.  `Resp.ok body` is a 2xx response with parsed JSON `body`;
  `Resp.err s` is a response whose status `s` makes `raise_for_status`
  raise `aiohttp.ClientResponseError`.
* The side effects of `_call_openai_chat` (rate-limiter waits, semaphore
  acquisition/release, POSTs, header feedback) are recorded in an event
  trace `List Ev`, in program order.  An `async with` releases its slot
  when the block exits, so the slot of a 429 attempt is released only
  after the recursive retry returns; the traces reflect that.
* The message content returned by the service is a string that
  `json.loads` parses; content is embedded as the already-parsed `Json`
  value, and `json.loads` as the requirement that it be a JSON object.
* `pydantic` is external: a `PydanticModel` carries its name,
  description, its `model_json_schema()` output, and its field-validation
  behaviour as a boolean function.
* `datetime.now()` is an external clock, passed in as `now`.
* `count_tokens` (from `async_openai.tokens`) is external and passed in
  as a function argument.
-/

/-- JSON values; a Python dict is an ordered association list. -/
inductive Json where
  | str (s : String)
  | num (n : Int)
  | jbool (b : Bool)
  | null
  | arr (elems : List Json)
  | obj (fields : List (String × Json))

/-- Usage information from `async_openai.tokens.GPTTokens`. -/
structure GPTTokens where
  prompt_tokens : Nat
  completion_tokens : Nat
  total_tokens : Nat
deriving DecidableEq

/-- Message roles used by `_construct_messages`. -/
inductive Role where
  | system
  | user
deriving DecidableEq

/-- One chat message, a dict `\x7b"role": ..., "content": ...\x7d`. -/
structure Message where
  role : Role
  content : String
deriving DecidableEq

/-- Python string truthiness applied by `text or prompt`: `None` and the
empty string both fall back to `prompt`. -/
def textOrPrompt (text : Option String) (prompt : String) : String :=
  match text with
  | none => prompt
  | some t => if t = "" then prompt else t

/-- Embedding of `_construct_messages(prompt, text=None)`: a system
message is added when `text is not None`; the user message content is
`text or prompt`. -/
def _construct_messages (prompt : String) (text : Option String) : List Message :=
  (match text with
   | none => []
   | some _ => [{ role := Role.system, content := prompt }])
  ++ [{ role := Role.user, content := textOrPrompt text prompt }]

/-- External pydantic model: its class name, `Config.description`, the
JSON schema produced by `model_json_schema()`, and the validation
behaviour of constructing an instance from keyword fields. -/
structure PydanticModel where
  name : String
  description : String
  model_json_schema : Json
  validate_fields : List (String × Json) → Bool

/-- Python dict assignment `d[k] = v` on an association list: overwrite
in place when the key exists, append otherwise. -/
def setKey (fields : List (String × Json)) (k : String) (v : Json) : List (String × Json) :=
  if fields.any (fun p => p.1 = k) then
    fields.map (fun p => if p.1 = k then (k, v) else p)
  else
    fields ++ [(k, v)]

/-- Dict assignment lifted to `Json` (the schema is always an object). -/
def jsonSetKey (j : Json) (k : String) (v : Json) : Json :=
  match j with
  | .obj fields => .obj (setKey fields k v)
  | other => other

/-- Embedding of `get_json_schema_from_pydantic(pydantic_model)`. -/
def get_json_schema_from_pydantic (pm : PydanticModel) : Json :=
  let schema := jsonSetKey pm.model_json_schema "additionalProperties" (Json.jbool false)
  let json_schema := Json.obj
    [("name", Json.str pm.name),
     ("description", Json.str pm.description),
     ("schema", schema),
     ("strict", Json.jbool true)]
  Json.obj [("type", Json.str "json_schema"), ("json_schema", json_schema)]

/-- One element of the response's `choices` list; only
`choice["message"]["content"]` is consumed, embedded already parsed. -/
structure Choice where
  message_content : Json

/-- Parsed JSON body of a chat-completion response: the `usage` and
`choices` keys may be absent. -/
structure ApiBody where
  usage : Option GPTTokens
  choices : Option (List Choice)

/-- Transport oracle entry: what the server answers one POST attempt. -/
inductive Resp where
  | ok (body : ApiBody)
  | err (status : Nat)

/-- Request body `data` posted to the chat endpoint. -/
structure RequestData where
  model : String
  messages : List Message
  response_format : Option Json

/-- Observable side effects of `_call_openai_chat`, in program order:
`waitAvail (some n)` is `RATE_LIMITER.wait_for_availability(n)`,
`waitAvail none` the amount-less wait on the 429 path, `acquire` and
`release` the semaphore transitions of `async with`, `post` the HTTP
POST with its request body and the server's answer, and `updateHeaders`
the `RATE_LIMITER.update_from_headers` feedback call. -/
inductive Ev where
  | waitAvail (amount : Option Nat)
  | acquire
  | post (data : RequestData) (r : Resp)
  | updateHeaders
  | release

/-- Errors surfaced by one call: `http s` is a non-429
`ClientResponseError` re-raised by `_call_openai_chat`; `noResponse`
marks an exhausted transport oracle; `badResponse` is
`BadResponseException` carrying the offending payload; `jsonDecode` is a
`json.loads` failure on non-object content; `validation` is a pydantic
validation failure constructing `ChatOutput`. -/
inductive CallError where
  | http (status : Nat)
  | noResponse
  | badResponse (body : ApiBody)
  | jsonDecode (content : Json)
  | validation (fields : List (String × Json))

/-- Embedding of `_call_openai_chat(data, required_tokens)` against a
transport oracle, returning the outcome together with the event trace.
On a 429 the function waits for availability (no amount) and retries
itself recursively; the outer `async with` slot is released only after
the recursive call returns, hence the trailing `release`. -/
def _call_openai_chat (data : RequestData) (required_tokens : Nat) :
    List Resp → Except CallError ApiBody × List Ev
  | [] =>
    (Except.error CallError.noResponse,
     [Ev.waitAvail (some required_tokens), Ev.acquire, Ev.release])
  | r :: rest =>
    match r with
    | Resp.ok body =>
      (Except.ok body,
       [Ev.waitAvail (some required_tokens), Ev.acquire,
        Ev.post data (Resp.ok body), Ev.updateHeaders, Ev.release])
    | Resp.err status =>
      if status = 429 then
        let inner := _call_openai_chat data required_tokens rest
        (inner.1,
         [Ev.waitAvail (some required_tokens), Ev.acquire,
          Ev.post data (Resp.err status), Ev.waitAvail none]
         ++ inner.2 ++ [Ev.release])
      else
        (Except.error (CallError.http status),
         [Ev.waitAvail (some required_tokens), Ev.acquire,
          Ev.post data (Resp.err status), Ev.release])

/-- Metadata-augmented output of a schema-bound call: the dynamically
created `ChatOutput(pydantic_model)` instance, with the parsed payload
fields plus the debugging metadata added by the subclass. -/
structure ChatOutput where
  payload : List (String × Json)
  gpt_called_at : Nat
  gpt_tokens_used : GPTTokens
  gpt_raw_input : String
  gpt_model : String
  id : Option String

/-- Result of one call: `(result, usage)` when no pydantic model was
supplied, else the metadata-augmented `ChatOutput`. -/
inductive CallResult where
  | plain (content : Json) (usage : GPTTokens)
  | structured (out : ChatOutput)

/-- Request body constructed by `call_openai_chat`: `model` and
`messages` always, `response_format` exactly when a pydantic model is
supplied. -/
def build_request_data (pm : Option PydanticModel) (messages : List Message)
    (gpt_model : String) : RequestData :=
  { model := gpt_model,
    messages := messages,
    response_format := pm.map get_json_schema_from_pydantic }

/-- Embedding of `call_openai_chat(prompt, text, pydantic_model,
gpt_model, id)`: builds the messages, estimates tokens, builds the
request body, runs `_call_openai_chat`, validates the envelope
(`usage` present, `choices` present and non-empty), and shapes the
result: `(content, usage)` without a model, else the parsed content
merged with metadata into `ChatOutput`. -/
def call_openai_chat (count_tokens : List Message → String → Nat)
    (prompt : String) (text : Option String) (pydantic_model : Option PydanticModel)
    (gpt_model : String) (id : Option String) (transport : List Resp) (now : Nat) :
    Except CallError CallResult × List Ev :=
  let messages := _construct_messages prompt text
  let required_tokens := count_tokens messages gpt_model
  let data := build_request_data pydantic_model messages gpt_model
  let run := _call_openai_chat data required_tokens transport
  let result : Except CallError CallResult :=
    match run.1 with
    | Except.error e => Except.error e
    | Except.ok body =>
      match body.usage, body.choices with
      | some usage, some (c :: _) =>
        (match pydantic_model with
         | none => Except.ok (CallResult.plain c.message_content usage)
         | some pm =>
           match c.message_content with
           | Json.obj result_json =>
             if pm.validate_fields result_json then
               Except.ok (CallResult.structured
                 { payload := result_json,
                   gpt_called_at := now,
                   gpt_tokens_used := usage,
                   gpt_raw_input := textOrPrompt text prompt,
                   gpt_model := gpt_model,
                   id := id })
             else
               Except.error (CallError.validation result_json)
           | other => Except.error (CallError.jsonDecode other))
      | _, _ => Except.error (CallError.badResponse body)
  (result, run.2)

/-- One row of `input_data`: keyword arguments `text` and `id` splatted
into `call_openai_chat`. -/
structure Row where
  text : Option String
  id : Option String

/-- Event-loop model of `asyncio.gather(*tasks, return_exceptions=True)`:
each completion writes the outcome of task `i` into slot `i` of the
result array; `order` is the order in which the scheduler completes the
tasks.  Slots of tasks that never complete stay `none`. -/
def gatherFill {α : Type} (outcomes : Nat → α) :
    List (Option α) → List Nat → List (Option α)
  | acc, [] => acc
  | acc, i :: rest => gatherFill outcomes (acc.set i (some (outcomes i))) rest

/-- Gather `k` concurrent tasks, completing them in `order`. -/
def asyncio_gather {α : Type} (k : Nat) (outcomes : Nat → α) (order : List Nat) :
    List (Option α) :=
  gatherFill outcomes (List.replicate k none) order

/-- Outcome of the task spawned for row `i` of `input_data`:
`call_openai_chat(prompt, pydantic_model=..., gpt_model=..., **row)`,
run against that task's own transport oracle. -/
def taskOutcome (count_tokens : List Message → String → Nat) (prompt : String)
    (input_data : List Row) (pydantic_model : Option PydanticModel)
    (gpt_model : String) (transports : List (List Resp)) (now : Nat)
    (i : Nat) : Except CallError CallResult :=
  let row := input_data.getD i { text := none, id := none }
  (call_openai_chat count_tokens prompt row.text pydantic_model gpt_model row.id
    (transports.getD i []) now).1

/-- Embedding of the gather step of `async_call_open_ai_chat` (the
`results` sequence of line 141): one task per row, completed in the
scheduler's `order`, outcomes written back index-stably.  This sequence
is the batch output when no pydantic model is supplied, and the input of
`split_valid_and_invalid_records` otherwise. -/
def async_call_open_ai_chat (count_tokens : List Message → String → Nat)
    (prompt : String) (input_data : List Row)
    (pydantic_model : Option PydanticModel) (gpt_model : String)
    (transports : List (List Resp)) (now : Nat) (order : List Nat) :
    List (Option (Except CallError CallResult)) :=
  asyncio_gather input_data.length
    (taskOutcome count_tokens prompt input_data pydantic_model gpt_model transports now)
    order

/-!
Transition-system model of the concurrency gate.  Each logical call of a
batch interleaves with its siblings only at suspension points (rate
waits, semaphore acquisition, network I/O); between two suspension
points code runs without preemption.  A task is modelled by its
remaining transport oracle and the number of semaphore slots its nested
`async with` frames currently hold; the configuration carries the
semaphore's available-permit count.
-/

/-- Program counter of one task: `idle` before `wait_for_availability`
plus semaphore acquisition of the next attempt, `flight` while its POST
is in flight, `unwind` while its `async with` frames release their
slots (innermost first), `done` after the call returned or raised. -/
inductive TaskPC where
  | idle (script : List Resp) (held : Nat)
  | flight (script : List Resp) (held : Nat)
  | unwind (held : Nat)
  | done

/-- Number of semaphore slots a task currently holds. -/
def TaskPC.heldSlots : TaskPC → Nat
  | .idle _ h => h
  | .flight _ h => h
  | .unwind h => h
  | .done => 0

/-- Whether a task has a network call in flight. -/
def TaskPC.inFlight : TaskPC → Bool
  | .flight _ _ => true
  | _ => false

/-- Configuration of a batch run: available semaphore permits and the
state of every task. -/
structure Cfg where
  avail : Nat
  tasks : List TaskPC

/-- Interleaving semantics of the executors sharing the semaphore.
`acquire` needs a free permit (`asyncio.Semaphore` suspends otherwise)
and moves a task's next attempt into flight holding one more slot; the
three `respond` rules consume the head of the task's oracle (a 429 keeps
every held slot and goes back to waiting, any other response starts
unwinding); `release` gives one held slot back, `finish` retires a task
with no slots left. -/
inductive Step : Cfg → Cfg → Prop where
  | acquire (c : Cfg) (i : Nat) (rs : List Resp) (h a : Nat) :
      c.tasks[i]? = some (TaskPC.idle rs h) → c.avail = a + 1 →
      Step c { avail := a, tasks := c.tasks.set i (TaskPC.flight rs (h + 1)) }
  | respondOk (c : Cfg) (i : Nat) (body : ApiBody) (rest : List Resp) (h : Nat) :
      c.tasks[i]? = some (TaskPC.flight (Resp.ok body :: rest) h) →
      Step c { avail := c.avail, tasks := c.tasks.set i (TaskPC.unwind h) }
  | respondThrottle (c : Cfg) (i : Nat) (rest : List Resp) (h : Nat) :
      c.tasks[i]? = some (TaskPC.flight (Resp.err 429 :: rest) h) →
      Step c { avail := c.avail, tasks := c.tasks.set i (TaskPC.idle rest h) }
  | respondErr (c : Cfg) (i : Nat) (s : Nat) (rest : List Resp) (h : Nat) :
      c.tasks[i]? = some (TaskPC.flight (Resp.err s :: rest) h) → s ≠ 429 →
      Step c { avail := c.avail, tasks := c.tasks.set i (TaskPC.unwind h) }
  | respondNone (c : Cfg) (i : Nat) (h : Nat) :
      c.tasks[i]? = some (TaskPC.flight [] h) →
      Step c { avail := c.avail, tasks := c.tasks.set i (TaskPC.unwind h) }
  | release (c : Cfg) (i : Nat) (h : Nat) :
      c.tasks[i]? = some (TaskPC.unwind (h + 1)) →
      Step c { avail := c.avail + 1, tasks := c.tasks.set i (TaskPC.unwind h) }
  | finish (c : Cfg) (i : Nat) :
      c.tasks[i]? = some (TaskPC.unwind 0) →
      Step c { avail := c.avail, tasks := c.tasks.set i TaskPC.done }

/-- Initial configuration: `RATE_LIMITER_SEMAPHORE` has `n` permits and
every task is about to start its first attempt holding no slot. -/
def initCfg (n : Nat) (scripts : List (List Resp)) : Cfg :=
  { avail := n, tasks := scripts.map (fun rs => TaskPC.idle rs 0) }

/-- Configurations reachable from the initial one by interleaved steps. -/
inductive Reach (n : Nat) (scripts : List (List Resp)) : Cfg → Prop where
  | start : Reach n scripts (initCfg n scripts)
  | next (c c' : Cfg) : Reach n scripts c → Step c c' → Reach n scripts c'

/-- Total number of semaphore slots held across all tasks. -/
def heldSum (c : Cfg) : Nat := (c.tasks.map TaskPC.heldSlots).sum

/-- Number of tasks with a network call currently in flight. -/
def inFlightCount (c : Cfg) : Nat := c.tasks.countP TaskPC.inFlight

/-- Combined invariant of the gate: available permits plus held slots
equal the capacity, and a task with a call in flight holds a slot. -/
def GateInv (n : Nat) (c : Cfg) : Prop :=
  c.avail + heldSum c = n ∧ ∀ t ∈ c.tasks, t.inFlight = true → 1 ≤ t.heldSlots

/-- Availability waits issued to the rate limiter. -/
def Ev.isAvailWait : Ev → Bool
  | .waitAvail _ => true
  | _ => false

/-- Semaphore acquisitions. -/
def Ev.isAcquire : Ev → Bool
  | .acquire => true
  | _ => false

/-- Semaphore releases. -/
def Ev.isRelease : Ev → Bool
  | .release => true
  | _ => false

/-- Concrete token estimator used to instantiate theorems. -/
def ctZero : List Message → String → Nat := fun _ _ => 0

/-- Concrete usage record. -/
def usageOne : GPTTokens := { prompt_tokens := 1, completion_tokens := 2, total_tokens := 3 }

/-- Concrete parsed structured-output payload. -/
def parisFields : List (String × Json) := [("text", Json.str "Paris")]

/-- Concrete pydantic model with a single string field `text`. -/
def pmText : PydanticModel :=
  { name := "Out",
    description := "desc",
    model_json_schema := Json.obj [("type", Json.str "object")],
    validate_fields := fun fs =>
      match fs with
      | [(k, Json.str v)] => k == "text" && v == "Paris"
      | _ => false }

/-- Concrete well-formed response body whose content is
`\x7b"text": "Paris"\x7d`. -/
def parisBody : ApiBody :=
  { usage := some usageOne,
    choices := some [{ message_content := Json.obj parisFields }] }

/-- Envelope produced by a schema-bound call with prompt `"p"`,
supplied-but-empty text, model `"m"` and the `parisBody` response. -/
def parisOut : ChatOutput :=
  { payload := parisFields,
    gpt_called_at := 0,
    gpt_tokens_used := usageOne,
    gpt_raw_input := "p",
    gpt_model := "m",
    id := none }

/-!
Helper lemmas.
-/

/-- Unfolding of the 429 branch of `_call_openai_chat`: same final
result as the retry, with the retry's full trace bracketed between the
throttled attempt (ending in the amount-less wait) and the release of
the throttled attempt's own slot. -/
theorem call_trace_throttle (data : RequestData) (n : Nat) (rest : List Resp) :
    _call_openai_chat data n (Resp.err 429 :: rest)
      = ((_call_openai_chat data n rest).1,
         [Ev.waitAvail (some n), Ev.acquire, Ev.post data (Resp.err 429), Ev.waitAvail none]
           ++ (_call_openai_chat data n rest).2 ++ [Ev.release]) := by
  simp [_call_openai_chat]

/-- Trace and result of a run whose transport answers `d` consecutive
429s and then succeeds: the `d` throttled attempts pile up on the left,
their `d` releases unwind on the right, after the successful attempt. -/
theorem call_trace_replicate (data : RequestData) (n : Nat) (b : ApiBody) (d : Nat) :
    _call_openai_chat data n (List.replicate d (Resp.err 429) ++ [Resp.ok b])
      = (Except.ok b,
         (List.replicate d
            [Ev.waitAvail (some n), Ev.acquire, Ev.post data (Resp.err 429), Ev.waitAvail none]).flatten
           ++ [Ev.waitAvail (some n), Ev.acquire, Ev.post data (Resp.ok b),
               Ev.updateHeaders, Ev.release]
           ++ List.replicate d Ev.release) := by
  induction d with
  | zero => simp [_call_openai_chat]
  | succ d ih =>
    rw [List.replicate_succ, List.cons_append, call_trace_throttle, ih]
    rw [List.replicate_succ' d Ev.release]
    rw [List.replicate_succ]
    simp [List.append_assoc]

/-- Filling completions never changes the length of the result array. -/
theorem gatherFill_length {α : Type} (outcomes : Nat → α) (order : List Nat)
    (acc : List (Option α)) :
    (gatherFill outcomes acc order).length = acc.length := by
  induction order generalizing acc with
  | nil => rfl
  | cons j rest ih => simp [gatherFill, ih]

/-- Slots of tasks that do not complete in `order` keep their value. -/
theorem gatherFill_get_of_not_mem {α : Type} (outcomes : Nat → α) (order : List Nat)
    (acc : List (Option α)) (i : Nat) (hi : i ∉ order) :
    (gatherFill outcomes acc order)[i]? = acc[i]? := by
  induction order generalizing acc with
  | nil => rfl
  | cons j rest ih =>
    have hij : i ≠ j := fun h => hi (h ▸ List.mem_cons_self j rest)
    have hrest : i ∉ rest := fun h => hi (List.mem_cons_of_mem j h)
    rw [gatherFill, ih _ hrest, List.getElem?_set_ne hij.symm]

/-- Index stability of the fill loop: once task `i` completes, slot `i`
holds exactly the outcome of task `i`, whatever the completion order. -/
theorem gatherFill_get_of_mem {α : Type} (outcomes : Nat → α) (order : List Nat)
    (acc : List (Option α)) (i : Nat) (hmem : i ∈ order) (hi : i < acc.length) :
    (gatherFill outcomes acc order)[i]? = some (some (outcomes i)) := by
  induction order generalizing acc with
  | nil => cases hmem
  | cons j rest ih =>
    by_cases hrest : i ∈ rest
    · rw [gatherFill]
      exact ih _ hrest (by simpa using hi)
    · have hij : i = j := by
        rcases List.mem_cons.mp hmem with h | h
        · exact h
        · exact absurd h hrest
      subst hij
      rw [gatherFill, gatherFill_get_of_not_mem _ _ _ _ hrest]
      exact List.getElem?_set_eq_of_lt _ hi

/-- Updating one entry of a list shifts the sum of a projection by the
difference between the new and the old entry. -/
theorem sum_map_set (f : TaskPC → Nat) (l : List TaskPC) (i : Nat) (x y : TaskPC)
    (h : l[i]? = some y) :
    ((l.set i x).map f).sum + f y = (l.map f).sum + f x := by
  induction l generalizing i with
  | nil => simp at h
  | cons a t ih =>
    cases i with
    | zero =>
      simp only [List.getElem?_cons_zero, Option.some_inj] at h
      subst h
      simp [List.set]
      omega
    | succ m =>
      simp only [List.getElem?_cons_succ] at h
      have := ih m h
      simp only [List.set_cons_succ, List.map_cons, List.sum_cons]
      omega

/-- When every in-flight task holds at least one slot, there are no more
in-flight tasks than held slots. -/
theorem countP_le_heldSum (l : List TaskPC)
    (h : ∀ t ∈ l, t.inFlight = true → 1 ≤ t.heldSlots) :
    l.countP TaskPC.inFlight ≤ (l.map TaskPC.heldSlots).sum := by
  induction l with
  | nil => simp
  | cons a t ih =>
    have ht := ih (fun x hx => h x (List.mem_cons_of_mem a hx))
    rw [List.countP_cons, List.map_cons, List.sum_cons]
    by_cases hf : a.inFlight = true
    · have ha := h a (List.mem_cons_self a t) hf
      simp [hf]
      omega
    · simp [hf]
      omega

/-- One-step preservation of the gate invariant, for a step that
replaces task `i` (previously `y`) by `x` and sets the available-permit
count to `na`. -/
theorem gateInv_set (n : Nat) (c : Cfg) (i : Nat) (x y : TaskPC) (na : Nat)
    (hget : c.tasks[i]? = some y) (hinv : GateInv n c)
    (hbal : na + heldSum c + x.heldSlots = n + y.heldSlots)
    (hx : x.inFlight = true → 1 ≤ x.heldSlots) :
    GateInv n { avail := na, tasks := c.tasks.set i x } := by
  obtain ⟨i1, i2⟩ := hinv
  have hs := sum_map_set TaskPC.heldSlots c.tasks i x y hget
  constructor
  · show na + ((c.tasks.set i x).map TaskPC.heldSlots).sum = n
    have : heldSum c = (c.tasks.map TaskPC.heldSlots).sum := rfl
    omega
  · intro t ht hf
    rcases List.mem_or_eq_of_mem_set ht with hmem | rfl
    · exact i2 t hmem hf
    · exact hx hf

/-- Every reachable configuration satisfies the gate invariant. -/
theorem gateInv_of_reach (n : Nat) (scripts : List (List Resp)) (c : Cfg)
    (h : Reach n scripts c) : GateInv n c := by
  induction h with
  | start =>
    constructor
    · show n + ((scripts.map (fun rs => TaskPC.idle rs 0)).map TaskPC.heldSlots).sum = n
      rw [List.map_map]
      have : (TaskPC.heldSlots ∘ fun rs => TaskPC.idle rs 0) = fun _ => 0 := rfl
      simp [this]
    · intro t ht hf
      simp only [initCfg, List.mem_map] at ht
      obtain ⟨rs, _, rfl⟩ := ht
      simp [TaskPC.inFlight] at hf
  | next c c' hr hs ih =>
    have i1 := ih.1
    cases hs with
    | acquire i rs hh a hget havail =>
      refine gateInv_set n c i _ _ a hget ih ?_ ?_
      · simp [TaskPC.heldSlots]
        omega
      · intro
        simp [TaskPC.heldSlots]
    | respondOk i body rest hh hget =>
      refine gateInv_set n c i _ _ c.avail hget ih ?_ ?_
      · simp [TaskPC.heldSlots]
        omega
      · intro hf
        simp [TaskPC.inFlight] at hf
    | respondThrottle i rest hh hget =>
      refine gateInv_set n c i _ _ c.avail hget ih ?_ ?_
      · simp [TaskPC.heldSlots]
        omega
      · intro hf
        simp [TaskPC.inFlight] at hf
    | respondErr i s rest hh hget hne =>
      refine gateInv_set n c i _ _ c.avail hget ih ?_ ?_
      · simp [TaskPC.heldSlots]
        omega
      · intro hf
        simp [TaskPC.inFlight] at hf
    | respondNone i hh hget =>
      refine gateInv_set n c i _ _ c.avail hget ih ?_ ?_
      · simp [TaskPC.heldSlots]
        omega
      · intro hf
        simp [TaskPC.inFlight] at hf
    | release i hh hget =>
      refine gateInv_set n c i _ _ (c.avail + 1) hget ih ?_ ?_
      · simp [TaskPC.heldSlots]
        omega
      · intro hf
        simp [TaskPC.inFlight] at hf
    | finish i hget =>
      refine gateInv_set n c i _ _ c.avail hget ih ?_ ?_
      · simp [TaskPC.heldSlots]
        omega
      · intro hf
        simp [TaskPC.inFlight] at hf

/-- Every POST event in a trace of `_call_openai_chat` carries exactly
the request body `data` the call was invoked with. -/
theorem post_data_of_mem (data : RequestData) (n : Nat) (tr : List Resp)
    (d : RequestData) (r : Resp)
    (hmem : Ev.post d r ∈ (_call_openai_chat data n tr).2) : d = data := by
  induction tr with
  | nil => simp [_call_openai_chat] at hmem
  | cons hd rest ih =>
    cases hd with
    | ok body =>
      simp [_call_openai_chat] at hmem
      exact hmem.1
    | err s =>
      by_cases h429 : s = 429
      · subst h429
        simp [_call_openai_chat] at hmem
        rcases hmem with h | h
        · exact h.1
        · exact ih h
      · simp [_call_openai_chat, h429] at hmem
        exact hmem.1

/-- Inversion for schema-bound successes: the metadata fields of any
`ChatOutput` the executor returns are the request's model and id, the
clock reading, and `text or prompt` as raw input. -/
theorem structured_fields (ct : List Message → String → Nat) (prompt : String)
    (text : Option String) (pm : PydanticModel) (gm : String) (id : Option String)
    (transport : List Resp) (now : Nat) (out : ChatOutput)
    (h : (call_openai_chat ct prompt text (some pm) gm id transport now).1
          = Except.ok (CallResult.structured out)) :
    out.gpt_raw_input = textOrPrompt text prompt ∧ out.gpt_model = gm
      ∧ out.id = id ∧ out.gpt_called_at = now := by
  simp only [call_openai_chat] at h
  rcases hr2 : (_call_openai_chat (build_request_data (some pm) (_construct_messages prompt text) gm)
      (ct (_construct_messages prompt text) gm) transport).1 with e | body
  · rw [hr2] at h
    simp at h
  · rw [hr2] at h
    rcases body with ⟨u, ch⟩
    rcases u with _ | u
    · simp at h
    rcases ch with _ | ch
    · simp at h
    rcases ch with _ | ⟨c, cs⟩
    · simp at h
    simp only [] at h
    rcases hc : c.message_content with s | m | b | _ | elems | fs <;> rw [hc] at h
    · simp at h
    · simp at h
    · simp at h
    · simp at h
    · simp at h
    by_cases hv : pm.validate_fields fs = true
    · simp [hv] at h
      subst h
      exact ⟨rfl, rfl, rfl, rfl⟩
    · simp [hv] at h

/-!
Claim theorems.
-/

/-- Claim C3: a first response with HTTP status 429 followed by a second
successful response yields the same final executor result as a run whose
single immediate response is that same success, and between the
throttled attempt and the retried call the trace shows exactly one Rate
Budget Tracker availability-wait (the amount-less
`wait_for_availability()` of the 429 handler); the retried call itself
then re-runs the estimate-and-wait step as part of its own attempt. -/
theorem throttle_retry_equiv (ct : List Message → String → Nat) (prompt : String)
    (text : Option String) (pm : Option PydanticModel) (gm : String)
    (id : Option String) (body : ApiBody) (now : Nat) :
    (call_openai_chat ct prompt text pm gm id [Resp.err 429, Resp.ok body] now).1
      = (call_openai_chat ct prompt text pm gm id [Resp.ok body] now).1
    ∧ (call_openai_chat ct prompt text pm gm id [Resp.err 429, Resp.ok body] now).2
      = [Ev.waitAvail (some (ct (_construct_messages prompt text) gm)), Ev.acquire,
         Ev.post (build_request_data pm (_construct_messages prompt text) gm) (Resp.err 429)]
        ++ [Ev.waitAvail none]
        ++ (call_openai_chat ct prompt text pm gm id [Resp.ok body] now).2
        ++ [Ev.release]
    ∧ List.countP Ev.isAvailWait [Ev.waitAvail none] = 1 := by
  refine ⟨rfl, ?_, rfl⟩
  show (_call_openai_chat _ _ [Resp.err 429, Resp.ok body]).2 = _
  rw [call_trace_throttle]
  simp [_call_openai_chat, call_openai_chat]

/-- Claim C9: when the transport answers `d` consecutive 429s before a
success, the trace piles up one fresh semaphore acquisition per retry
level before any release: every acquisition of a deeper attempt happens
while all shallower attempts still hold their slots (all `d + 1`
acquisitions precede the first release), and each acquired slot is
released exactly once, when its own attempt's scope exits. -/
theorem nested_retry_slots (data : RequestData) (n : Nat) (b : ApiBody) (d : Nat) :
    (_call_openai_chat data n (List.replicate d (Resp.err 429) ++ [Resp.ok b])).1
      = Except.ok b
    ∧ (_call_openai_chat data n (List.replicate d (Resp.err 429) ++ [Resp.ok b])).2
      = ((List.replicate d
            [Ev.waitAvail (some n), Ev.acquire, Ev.post data (Resp.err 429), Ev.waitAvail none]).flatten
          ++ [Ev.waitAvail (some n), Ev.acquire])
        ++ [Ev.post data (Resp.ok b), Ev.updateHeaders, Ev.release]
        ++ List.replicate d Ev.release
    ∧ ((List.replicate d
          [Ev.waitAvail (some n), Ev.acquire, Ev.post data (Resp.err 429), Ev.waitAvail none]).flatten
        ++ [Ev.waitAvail (some n), Ev.acquire]).countP Ev.isAcquire = d + 1
    ∧ ((List.replicate d
          [Ev.waitAvail (some n), Ev.acquire, Ev.post data (Resp.err 429), Ev.waitAvail none]).flatten
        ++ [Ev.waitAvail (some n), Ev.acquire]).countP Ev.isRelease = 0
    ∧ (_call_openai_chat data n (List.replicate d (Resp.err 429) ++ [Resp.ok b])).2.countP
        Ev.isAcquire = d + 1
    ∧ (_call_openai_chat data n (List.replicate d (Resp.err 429) ++ [Resp.ok b])).2.countP
        Ev.isRelease = d + 1 := by
  have hrep : List.countP Ev.isRelease (List.replicate d Ev.release) = d := by
    induction d with
    | zero => rfl
    | succ k ihk =>
      rw [List.replicate_succ, List.countP_cons]
      simp [Ev.isRelease, ihk]
  have htr := call_trace_replicate data n b d
  have hflatAcq :
      ((List.replicate d
          [Ev.waitAvail (some n), Ev.acquire, Ev.post data (Resp.err 429), Ev.waitAvail none]).flatten).countP
        Ev.isAcquire = d := by
    rw [List.countP_flatten]
    simp [List.countP_cons, Ev.isAcquire]
  have hflatRel :
      ((List.replicate d
          [Ev.waitAvail (some n), Ev.acquire, Ev.post data (Resp.err 429), Ev.waitAvail none]).flatten).countP
        Ev.isRelease = 0 := by
    rw [List.countP_flatten]
    simp [List.countP_cons, Ev.isRelease]
  refine ⟨?_, ?_, ?_, ?_, ?_, ?_⟩
  · rw [htr]
  · rw [htr]
    simp [List.append_assoc]
  · rw [List.countP_append, hflatAcq]
    simp [List.countP_cons, Ev.isAcquire]
  · rw [List.countP_append, hflatRel]
    simp [List.countP_cons, Ev.isRelease]
  · rw [htr]
    simp only [List.countP_append, hflatAcq]
    simp [List.countP_cons, Ev.isAcquire]
  · rw [htr]
    simp only [List.countP_append, hflatRel]
    simp [List.countP_cons, Ev.isRelease, hrep]
    omega

/-- Claim C5, counterexample: with `prompt = "p"` and supplied-but-empty
`text = some ""`, the constructed message sequence is a system message
`"p"` followed by a user message `"p"` — not a user message carrying the
supplied text `""` as the claim states for every present `text`. -/
theorem construct_messages_claim_cx :
    _construct_messages "p" (some "")
      = [{ role := Role.system, content := "p" }, { role := Role.user, content := "p" }]
    ∧ _construct_messages "p" (some "")
      ≠ [{ role := Role.system, content := "p" }, { role := Role.user, content := "" }] := by
  constructor
  · rfl
  · decide

/-- Claim C5, amended: when `text` is absent the messages are a single
user message carrying `prompt`; when `text` is present they are a system
message carrying `prompt` followed by a user message carrying `text`,
except that an empty `text` falls back to `prompt` (Python `or`
truthiness). -/
theorem construct_messages_spec (prompt t : String) :
    _construct_messages prompt none = [{ role := Role.user, content := prompt }]
    ∧ _construct_messages prompt (some t)
      = [{ role := Role.system, content := prompt },
         { role := Role.user, content := if t = "" then prompt else t }] := by
  constructor
  · rfl
  · simp [_construct_messages, textOrPrompt]

/-- Claim C10: when `text` is supplied but empty, the message sequence
is a system message carrying `prompt` followed by a user message
carrying `prompt` (not the empty text), and any envelope returned by a
schema-bound success of such a call records `prompt` — not the empty
string — as its raw input. -/
theorem empty_text_fallback (ct : List Message → String → Nat) (prompt : String)
    (pm : PydanticModel) (gm : String) (id : Option String) (transport : List Resp)
    (now : Nat) (out : ChatOutput)
    (h : (call_openai_chat ct prompt (some "") (some pm) gm id transport now).1
          = Except.ok (CallResult.structured out)) :
    _construct_messages prompt (some "")
      = [{ role := Role.system, content := prompt }, { role := Role.user, content := prompt }]
    ∧ out.gpt_raw_input = prompt := by
  constructor
  · simp [_construct_messages, textOrPrompt]
  · have := (structured_fields ct prompt (some "") pm gm id transport now out h).1
    simpa [textOrPrompt] using this

/-- Claim C10, witness: a concrete schema-bound success with empty
supplied text, evaluated on the `parisBody` response. -/
theorem empty_text_fallback_witness :
    _construct_messages "p" (some "")
      = [{ role := Role.system, content := "p" }, { role := Role.user, content := "p" }]
    ∧ parisOut.gpt_raw_input = "p" :=
  empty_text_fallback ctZero "p" pmText "m" none [Resp.ok parisBody] 0 parisOut rfl

/-- Claim C4: on a delivered response body, the executor fails with
`BadResponseException` carrying that body — and produces no result —
exactly when the body lacks a `usage` object, lacks a `choices` key, or
has an empty `choices` list; a body with both a usage object and a
non-empty choices list never trips this validation. -/
theorem malformed_response_iff (ct : List Message → String → Nat) (prompt : String)
    (text : Option String) (pm : Option PydanticModel) (gm : String)
    (id : Option String) (now : Nat) (body : ApiBody) :
    ((call_openai_chat ct prompt text pm gm id [Resp.ok body] now).1
        = Except.error (CallError.badResponse body)
      ↔ (body.usage = none ∨ body.choices = none ∨ body.choices = some []))
    ∧ ((∃ b, (call_openai_chat ct prompt text pm gm id [Resp.ok body] now).1
        = Except.error (CallError.badResponse b))
      ↔ (body.usage = none ∨ body.choices = none ∨ body.choices = some [])) := by
  rcases body with ⟨u, ch⟩
  rcases u with _ | u
  · simp [call_openai_chat, _call_openai_chat]
  · rcases ch with _ | ch
    · simp [call_openai_chat, _call_openai_chat]
    · rcases ch with _ | ⟨c, cs⟩
      · simp [call_openai_chat, _call_openai_chat]
      · rcases pm with _ | pm
        · simp [call_openai_chat, _call_openai_chat]
        · rcases hc : c.message_content with s | m | b | _ | elems | fs
          · simp [call_openai_chat, _call_openai_chat, hc]
          · simp [call_openai_chat, _call_openai_chat, hc]
          · simp [call_openai_chat, _call_openai_chat, hc]
          · simp [call_openai_chat, _call_openai_chat, hc]
          · simp [call_openai_chat, _call_openai_chat, hc]
          · by_cases hv : pm.validate_fields fs = true
            · simp [call_openai_chat, _call_openai_chat, hc, hv]
            · simp [call_openai_chat, _call_openai_chat, hc, hv]

/-- Claim C6: every request body the executor POSTs to the transport
carries `response_format = get_json_schema_from_pydantic(model)` exactly
when a pydantic model is supplied and no `response_format` field
otherwise; and that wire value is
`\x7b type: "json_schema", json_schema: \x7b name, description, schema:
the model's JSON schema with additionalProperties set to false,
strict: true \x7d \x7d`. -/
theorem response_format_wire (ct : List Message → String → Nat) (prompt : String)
    (text : Option String) (pm : Option PydanticModel) (gm : String)
    (id : Option String) (transport : List Resp) (now : Nat)
    (d : RequestData) (r : Resp)
    (hmem : Ev.post d r ∈ (call_openai_chat ct prompt text pm gm id transport now).2) :
    d.response_format = Option.map get_json_schema_from_pydantic pm
    ∧ ∀ m : PydanticModel, get_json_schema_from_pydantic m
        = Json.obj
            [("type", Json.str "json_schema"),
             ("json_schema", Json.obj
               [("name", Json.str m.name),
                ("description", Json.str m.description),
                ("schema", jsonSetKey m.model_json_schema "additionalProperties"
                  (Json.jbool false)),
                ("strict", Json.jbool true)])] := by
  constructor
  · have hd : d = build_request_data pm (_construct_messages prompt text) gm := by
      refine post_data_of_mem _ (ct (_construct_messages prompt text) gm) transport d r ?_
      exact hmem
    rw [hd]
    rfl
  · intro m
    rfl

/-- Claim C6, witness: the POST of a concrete schema-less run carries no
`response_format`. -/
theorem response_format_wire_witness :
    (build_request_data none (_construct_messages "p" none) "m").response_format
      = Option.map get_json_schema_from_pydantic none :=
  (response_format_wire ctZero "p" none none "m" none [Resp.ok parisBody] 0
    (build_request_data none (_construct_messages "p" none) "m") (Resp.ok parisBody)
    (by simp [call_openai_chat, _call_openai_chat])).1

/-- Claim C7, counterexample: a schema-bound call with prompt `"p"` and
supplied-but-empty text succeeds on the `\x7b"text":"Paris"\x7d` response,
yet its envelope records `"p"` (the prompt) as raw input rather than the
supplied text `""` — so the returned envelope's `rawInput` is not
"the text (or prompt when text is absent)". -/
theorem schema_roundtrip_claim_cx :
    (call_openai_chat ctZero "p" (some "") (some pmText) "m" none
        [Resp.ok parisBody] 0).1
      = Except.ok (CallResult.structured parisOut)
    ∧ parisOut.gpt_raw_input ≠ "" := by
  constructor
  · rfl
  · decide

/-- Claim C7, amended: a schema-bound success returns the envelope
merging the fields parsed from the first choice's content with metadata:
the parsed payload itself, the clock reading, `tokensUsed` from the
response's usage object, `rawInput` equal to the text when it is present
and non-empty and to the prompt otherwise, `model` equal to the
requested model, and `id` equal to the request's id.  Instantiated at a
schema with field `text: string` and content `\x7b"text":"Paris"\x7d`, the
payload holds `text == "Paris"` (see the witness). -/
theorem schema_roundtrip (ct : List Message → String → Nat) (prompt : String)
    (text : Option String) (pm : PydanticModel) (gm : String) (id : Option String)
    (usage : GPTTokens) (pairs : List (String × Json)) (now : Nat)
    (hval : pm.validate_fields pairs = true) :
    (call_openai_chat ct prompt text (some pm) gm id
        [Resp.ok { usage := some usage,
                   choices := some [{ message_content := Json.obj pairs }] }] now).1
      = Except.ok (CallResult.structured
          { payload := pairs,
            gpt_called_at := now,
            gpt_tokens_used := usage,
            gpt_raw_input := textOrPrompt text prompt,
            gpt_model := gm,
            id := id }) := by
  simp [call_openai_chat, _call_openai_chat, hval]

/-- Claim C7, witness: the amended round trip at the schema with a
single string field `text`, response content `\x7b"text":"Paris"\x7d`,
model `"m"` and usage `(1, 2, 3)`: the envelope's payload is exactly
`[("text", "Paris")]`, its usage and model are those of the call. -/
theorem schema_roundtrip_witness :
    (call_openai_chat ctZero "q" (some "t") (some pmText) "m" (some "id7")
        [Resp.ok { usage := some usageOne,
                   choices := some [{ message_content := Json.obj parisFields }] }] 5).1
      = Except.ok (CallResult.structured
          { payload := parisFields,
            gpt_called_at := 5,
            gpt_tokens_used := usageOne,
            gpt_raw_input := textOrPrompt (some "t") "q",
            gpt_model := "m",
            id := some "id7" }) :=
  schema_roundtrip ctZero "q" (some "t") pmText "m" (some "id7") usageOne parisFields 5 rfl

/-- Claim C1: the gathered outcome sequence of the Batch Orchestrator
has one entry per input row, and — whatever order the scheduler
completes the concurrent calls in, provided every task completes — the
i-th entry is exactly the outcome of the task spawned for the i-th input
row. -/
theorem batch_index_alignment (ct : List Message → String → Nat) (prompt : String)
    (rows : List Row) (pm : Option PydanticModel) (gm : String)
    (transports : List (List Resp)) (now : Nat) (order : List Nat)
    (horder : ∀ i, i < rows.length → i ∈ order) (i : Nat) (hi : i < rows.length) :
    (async_call_open_ai_chat ct prompt rows pm gm transports now order).length = rows.length
    ∧ (async_call_open_ai_chat ct prompt rows pm gm transports now order)[i]?
      = some (some (taskOutcome ct prompt rows pm gm transports now i)) := by
  constructor
  · rw [async_call_open_ai_chat, asyncio_gather, gatherFill_length]
    simp
  · rw [async_call_open_ai_chat, asyncio_gather]
    exact gatherFill_get_of_mem _ order _ i (horder i hi) (by simpa using hi)

/-- Claim C1, witness: a two-row batch completed in reversed order still
puts row 0's outcome at position 0. -/
theorem batch_index_alignment_witness :
    (async_call_open_ai_chat ctZero "p" [{ text := none, id := none }, { text := some "t", id := none }]
        none "m" [[Resp.ok parisBody], [Resp.err 500]] 0 [1, 0]).length = 2
    ∧ (async_call_open_ai_chat ctZero "p" [{ text := none, id := none }, { text := some "t", id := none }]
        none "m" [[Resp.ok parisBody], [Resp.err 500]] 0 [1, 0])[0]?
      = some (some (taskOutcome ctZero "p" [{ text := none, id := none }, { text := some "t", id := none }]
          none "m" [[Resp.ok parisBody], [Resp.err 500]] 0 0)) :=
  batch_index_alignment ctZero "p" [{ text := none, id := none }, { text := some "t", id := none }]
    none "m" [[Resp.ok parisBody], [Resp.err 500]] 0 [1, 0]
    (by decide) 0 (by decide)

/-- Claim C2: if the executor invocation for request `j` of a batch
fails (its outcome is a captured error), every sibling request `i ≠ j`
still completes with the outcome it would have had anyway, that outcome
still sits at position `i` of the gathered batch output, the captured
error sits at position `j`, and the batch still returns a full-length
outcome sequence rather than aborting. -/
theorem partial_failure_isolation (ct : List Message → String → Nat) (prompt : String)
    (rows : List Row) (pm : Option PydanticModel) (gm : String) (now : Nat)
    (order : List Nat) (transports transportsF : List (List Resp)) (j : Nat) (e : CallError)
    (horder : ∀ i, i < rows.length → i ∈ order)
    (hagree : ∀ i, i ≠ j → transportsF.getD i [] = transports.getD i [])
    (hfail : taskOutcome ct prompt rows pm gm transportsF now j = Except.error e) :
    (async_call_open_ai_chat ct prompt rows pm gm transportsF now order).length = rows.length
    ∧ (∀ i, i < rows.length → i ≠ j →
        (async_call_open_ai_chat ct prompt rows pm gm transportsF now order)[i]?
          = some (some (taskOutcome ct prompt rows pm gm transports now i)))
    ∧ (j < rows.length →
        (async_call_open_ai_chat ct prompt rows pm gm transportsF now order)[j]?
          = some (some (Except.error e))) := by
  refine ⟨?_, ?_, ?_⟩
  · rw [async_call_open_ai_chat, asyncio_gather, gatherFill_length]
    simp
  · intro i hi hne
    rw [async_call_open_ai_chat, asyncio_gather]
    rw [gatherFill_get_of_mem _ order _ i (horder i hi) (by simpa using hi)]
    have hsame : taskOutcome ct prompt rows pm gm transportsF now i
        = taskOutcome ct prompt rows pm gm transports now i := by
      simp only [taskOutcome]
      rw [hagree i hne]
    rw [hsame]
  · intro hj
    rw [async_call_open_ai_chat, asyncio_gather]
    rw [gatherFill_get_of_mem _ order _ j (horder j hj) (by simpa using hj), hfail]

/-- Claim C2, witness: in a two-request schema-bound batch, injecting a
schema-mismatch into request 1 (its response content fails validation
against the supplied model) leaves request 0's outcome in place at
position 0, captures the validation error at position 1, and keeps the
output length 2. -/
theorem partial_failure_isolation_witness :
    (async_call_open_ai_chat ctZero "p" [{ text := none, id := none }, { text := some "t", id := none }]
        (some pmText) "m"
        [[Resp.ok parisBody],
         [Resp.ok { usage := some usageOne,
                    choices := some [{ message_content := Json.obj [("text", Json.str "Nope")] }] }]]
        0 [1, 0]).length = 2
    ∧ (∀ i, i < 2 → i ≠ 1 →
        (async_call_open_ai_chat ctZero "p" [{ text := none, id := none }, { text := some "t", id := none }]
            (some pmText) "m"
            [[Resp.ok parisBody],
             [Resp.ok { usage := some usageOne,
                        choices := some [{ message_content := Json.obj [("text", Json.str "Nope")] }] }]]
            0 [1, 0])[i]?
          = some (some (taskOutcome ctZero "p" [{ text := none, id := none }, { text := some "t", id := none }]
              (some pmText) "m" [[Resp.ok parisBody], [Resp.ok parisBody]] 0 i)))
    ∧ (1 < 2 →
        (async_call_open_ai_chat ctZero "p" [{ text := none, id := none }, { text := some "t", id := none }]
            (some pmText) "m"
            [[Resp.ok parisBody],
             [Resp.ok { usage := some usageOne,
                        choices := some [{ message_content := Json.obj [("text", Json.str "Nope")] }] }]]
            0 [1, 0])[1]?
          = some (some (Except.error (CallError.validation [("text", Json.str "Nope")])))) :=
  partial_failure_isolation ctZero "p" [{ text := none, id := none }, { text := some "t", id := none }]
    (some pmText) "m" 0 [1, 0] [[Resp.ok parisBody], [Resp.ok parisBody]]
    [[Resp.ok parisBody],
     [Resp.ok { usage := some usageOne,
                choices := some [{ message_content := Json.obj [("text", Json.str "Nope")] }] }]]
    1 (CallError.validation [("text", Json.str "Nope")])
    (by decide)
    (by
      intro i hi
      rcases i with _ | _ | k
      · rfl
      · exact absurd rfl hi
      · rfl)
    rfl

/-- Claim C8: in every configuration reachable by any interleaving of
the concurrent executors sharing a gate of capacity `n`, the number of
simultaneously in-flight network calls never exceeds `n`: a POST is only
in flight while its attempt holds a semaphore slot, and at most `n`
slots are outstanding at any time. -/
theorem concurrency_bound (n : Nat) (scripts : List (List Resp)) (c : Cfg)
    (h : Reach n scripts c) : inFlightCount c ≤ n := by
  obtain ⟨h1, h2⟩ := gateInv_of_reach n scripts c h
  have hc := countP_le_heldSum c.tasks h2
  have hsum : heldSum c = (c.tasks.map TaskPC.heldSlots).sum := rfl
  unfold inFlightCount
  omega

/-- Claim C8, witness: the configuration reached after one task of a
capacity-1 batch acquires the gate and goes in flight has at most one
call in flight. -/
theorem concurrency_bound_witness :
    inFlightCount { avail := 0, tasks := [TaskPC.flight [Resp.ok parisBody] 1] } ≤ 1 :=
  concurrency_bound 1 [[Resp.ok parisBody]] _
    (Reach.next _ _ Reach.start (Step.acquire _ 0 [Resp.ok parisBody] 0 0 rfl rfl))
